import Mathlib

/-!
Verification of the documentation-generator orchestrator (`generate-docs.js`).

The JavaScript source is shallowly embedded here:
JS numbers that only ever hold exact decimal values (the scoring weights
0.4 / 0.4 / 0.2 and the example/pattern ratios) are modelled as rationals;
JS objects used as string-keyed dictionaries are modelled as association
lists with `List.lookup` (absent key = `undefined`); exceptions are
modelled with `Except` / explicit success booleans.
-/

namespace GenerateDocs

/-- JS object produced by the tech-stack analyzer, as consumed by the
orchestrator: `techStack.frameworks` (used by the index renderer) and
`techStack.configurations` (used by the confidence scorer).  An absent
key is `none` (JS `undefined`). -/
structure TechStack where
  frameworks : List (String × List String)
  configurations : List (String × String)
deriving DecidableEq

/-- JS object produced by the architecture analyzer, as consumed by the
orchestrator: only its `patterns` field (domain → list of pattern
matches) is read. -/
structure Architecture where
  patterns : List (String × List String)
deriving DecidableEq

/-- Code examples object: domain → list of extracted examples
(`codeExamples[domain]`). -/
abbrev CodeExamples := List (String × List String)

/-- `architecture.patterns[domain]?.length > 0` — JS optional chaining:
an absent key yields `undefined`, and `undefined > 0` is `false`. -/
def hasPatternMatches (architecture : Architecture) (domain : String) : Bool :=
  match architecture.patterns.lookup domain with
  | none => false
  | some ps => decide (0 < ps.length)

/-- `codeExamples[domain]?.length > 0`. -/
def hasAcceptedExamples (codeExamples : CodeExamples) (domain : String) : Bool :=
  match codeExamples.lookup domain with
  | none => false
  | some es => decide (0 < es.length)

/-- `techStack.configurations[domain] !== undefined`. -/
def hasDetectedConfiguration (techStack : TechStack) (domain : String) : Bool :=
  (techStack.configurations.lookup domain).isSome

/-- The fixed ten-domain list hard-coded in `calculateConfidenceScores`. -/
def domains : List String :=
  ["authentication", "components", "state", "backgroundJobs",
   "fileStorage", "database", "errorHandling", "testing",
   "integration", "deployment"]

/-- The per-domain accumulation in `calculateConfidenceScores`:
`let score = 0; if (hasPatterns) score += 0.4; if (hasExamples)
score += 0.4; if (hasConfig) score += 0.2;`. -/
def rawConfidence (hasPatterns hasExamples hasConfig : Bool) : ℚ :=
  let score : ℚ := 0
  let score := if hasPatterns then score + 0.4 else score
  let score := if hasExamples then score + 0.4 else score
  let score := if hasConfig then score + 0.2 else score
  score

/-- `scores[domain] = Math.min(score, 1.0)`. -/
def confidenceScore (hasPatterns hasExamples hasConfig : Bool) : ℚ :=
  min (rawConfidence hasPatterns hasExamples hasConfig) 1

/-- `calculateConfidenceScores(techStack, architecture, codeExamples)`:
one entry per domain of the fixed ten-domain list. -/
def calculateConfidenceScores (techStack : TechStack) (architecture : Architecture)
    (codeExamples : CodeExamples) : List (String × ℚ) :=
  domains.map fun domain =>
    (domain, confidenceScore (hasPatternMatches architecture domain)
      (hasAcceptedExamples codeExamples domain)
      (hasDetectedConfiguration techStack domain))

/-- The per-domain expression in `calculateCompletenessScores`:
`patterns.length > 0 ? Math.min(examples.length / Math.max(patterns.length, 1), 1.0) : 0`. -/
def completenessScore (patternCount exampleCount : Nat) : ℚ :=
  if 0 < patternCount then
    min ((exampleCount : ℚ) / (max patternCount 1 : ℚ)) 1
  else 0

/-- `calculateCompletenessScores(architecture, codeExamples)`: iterates the
keys of `architecture.patterns`; `codeExamples[domain] || []` defaults an
absent key to the empty list. -/
def calculateCompletenessScores (architecture : Architecture)
    (codeExamples : CodeExamples) : List (String × ℚ) :=
  architecture.patterns.map fun entry =>
    let patterns := entry.2
    let examples := (codeExamples.lookup entry.1).getD []
    (entry.1, completenessScore patterns.length examples.length)

/-- Indicator used to state the spec's confidence formula
`0.4×hasPatternMatches + 0.4×hasAcceptedExamples + 0.2×hasDetectedConfiguration`. -/
def indicator (b : Bool) : ℚ := if b then 1 else 0

/-- Clamping to the interval [0,1], as the spec words it. -/
def clamp01 (q : ℚ) : ℚ := min (max q 0) 1

/-- The confidence formula exactly as the spec states it, for comparison
with the code's `confidenceScore`. -/
def specConfidenceFormula (hasPatterns hasExamples hasConfig : Bool) : ℚ :=
  clamp01 (0.4 * indicator hasPatterns + 0.4 * indicator hasExamples
    + 0.2 * indicator hasConfig)

/-- The completeness formula exactly as the spec states it
(`acceptedExampleCount / max(patternMatchCount, 1)`, clamped to [0,1]),
for comparison with the code's `completenessScore`. -/
def specCompletenessFormula (patternCount exampleCount : Nat) : ℚ :=
  clamp01 ((exampleCount : ℚ) / (max patternCount 1 : ℚ))

theorem confidenceScore_eq_spec (p e c : Bool) :
    confidenceScore p e c = specConfidenceFormula p e c := by
  cases p <;> cases e <;> cases c <;>
    simp [confidenceScore, specConfidenceFormula, rawConfidence, indicator, clamp01] <;>
    norm_num

/-- C1: for every domain in the fixed ten-domain list, the computed
confidence score equals 0.4 if the domain has at least one pattern match,
plus 0.4 if it has at least one accepted code example, plus 0.2 if a
configuration was detected for it (each term binary), clamped to [0,1]. -/
theorem confidence_matches_spec_formula (techStack : TechStack)
    (architecture : Architecture) (codeExamples : CodeExamples) :
    calculateConfidenceScores techStack architecture codeExamples =
      domains.map fun domain =>
        (domain, specConfidenceFormula (hasPatternMatches architecture domain)
          (hasAcceptedExamples codeExamples domain)
          (hasDetectedConfiguration techStack domain)) := by
  unfold calculateConfidenceScores
  exact List.map_congr_left fun d _ => by rw [confidenceScore_eq_spec]

theorem lookup_map_of_mem (f : String → ℚ) (l : List String) (d : String)
    (hd : d ∈ l) : (l.map fun x => (x, f x)).lookup d = some (f d) := by
  induction l with
  | nil => cases hd
  | cons a t ih =>
    rcases List.mem_cons.mp hd with h | h
    · subst h
      simp [List.lookup]
    · rcases eq_or_ne d a with h2 | h2
      · subst h2
        simp [List.lookup]
      · have hb : (d == a) = false := beq_eq_false_iff_ne.mpr h2
        simpa [List.lookup, hb] using ih h

theorem lookup_map_of_not_mem (f : String → ℚ) (l : List String) (d : String)
    (hd : d ∉ l) : (l.map fun x => (x, f x)).lookup d = none := by
  induction l with
  | nil => rfl
  | cons a t ih =>
    have h2 : d ≠ a := fun h => hd (h ▸ List.mem_cons_self a t)
    have ht : d ∉ t := fun h => hd (List.mem_cons_of_mem a h)
    have hb : (d == a) = false := beq_eq_false_iff_ne.mpr h2
    simpa [List.lookup, hb] using ih ht

/-- C10: the confidence score only takes the six values
{0, 0.2, 0.4, 0.6, 0.8, 1}, and the final `Math.min(score, 1.0)` clamp is
never the binding operation: the stored score always equals the raw
binary-weighted sum. -/
theorem confidence_value_set (techStack : TechStack) (architecture : Architecture)
    (codeExamples : CodeExamples) :
    ∀ entry ∈ calculateConfidenceScores techStack architecture codeExamples,
      entry.2 ∈ ([0, 0.2, 0.4, 0.6, 0.8, 1] : List ℚ) ∧
      entry.2 = rawConfidence (hasPatternMatches architecture entry.1)
        (hasAcceptedExamples codeExamples entry.1)
        (hasDetectedConfiguration techStack entry.1) := by
  intro entry hentry
  obtain ⟨d, _, rfl⟩ := List.mem_map.mp hentry
  refine ⟨?_, ?_⟩ <;>
  · cases hasPatternMatches architecture d <;>
      cases hasAcceptedExamples codeExamples d <;>
      cases hasDetectedConfiguration techStack d <;>
      simp [confidenceScore, rawConfidence] <;> norm_num

/-- C10 witness: on empty analyzer outputs the first scored entry is the
"authentication" one; it lies in the value set and equals the raw sum. -/
theorem confidence_value_set_witness :
    (("authentication", confidenceScore false false false).2 ∈
      ([0, 0.2, 0.4, 0.6, 0.8, 1] : List ℚ)) ∧
    ("authentication", confidenceScore false false false).2 =
      rawConfidence
        (hasPatternMatches ⟨[]⟩ ("authentication", confidenceScore false false false).1)
        (hasAcceptedExamples [] ("authentication", confidenceScore false false false).1)
        (hasDetectedConfiguration ⟨[], []⟩
          ("authentication", confidenceScore false false false).1) :=
  confidence_value_set ⟨[], []⟩ ⟨[]⟩ [] ("authentication", confidenceScore false false false)
    (List.mem_cons_self _ _)

theorem confidenceScore_mono {p p' e e' c c' : Bool}
    (hp : p = true → p' = true) (he : e = true → e' = true)
    (hc : c = true → c' = true) :
    confidenceScore p e c ≤ confidenceScore p' e' c' := by
  revert hp he hc
  cases p <;> cases p' <;> cases e <;> cases e' <;> cases c <;> cases c' <;>
    intro hp he hc <;>
    first
    | exact Bool.noConfusion (hp rfl)
    | exact Bool.noConfusion (he rfl)
    | exact Bool.noConfusion (hc rfl)
    | norm_num [confidenceScore, rawConfidence]

/-- C7: for a fixed domain, with all other inputs held constant, the
confidence score is monotonically non-decreasing as each of the three
predicates (has pattern matches, has accepted examples, has detected
configuration) flips from false to true. -/
theorem confidence_monotone (ts ts' : TechStack) (ar ar' : Architecture)
    (ce ce' : CodeExamples) (d : String) (hd : d ∈ domains)
    (hp : hasPatternMatches ar d = true → hasPatternMatches ar' d = true)
    (he : hasAcceptedExamples ce d = true → hasAcceptedExamples ce' d = true)
    (hc : hasDetectedConfiguration ts d = true → hasDetectedConfiguration ts' d = true) :
    ∀ q q', (calculateConfidenceScores ts ar ce).lookup d = some q →
      (calculateConfidenceScores ts' ar' ce').lookup d = some q' → q ≤ q' := by
  intro q q' hq hq'
  rw [calculateConfidenceScores, lookup_map_of_mem _ _ _ hd] at hq hq'
  obtain rfl := Option.some_injective _ hq
  obtain rfl := Option.some_injective _ hq'
  exact confidenceScore_mono hp he hc

/-- C7 witness: adding a detected configuration for "authentication" (the
other two predicates staying false) does not decrease its confidence. -/
theorem confidence_monotone_witness :
    confidenceScore false false false ≤ confidenceScore false false true :=
  confidence_monotone ⟨[], []⟩ ⟨[], [("authentication", "cfg")]⟩ ⟨[]⟩ ⟨[]⟩ [] []
    "authentication" (by decide) (fun h => h) (fun h => h) (fun _ => rfl)
    (confidenceScore false false false) (confidenceScore false false true) rfl rfl

/-- C8: scoring is deterministic and depends only on the detector outputs
it cites — two invocations on the same pattern sets, example sets and
detected configurations (other fields of the analyzer outputs may differ,
e.g. the detected frameworks) produce identical per-domain score sets. -/
theorem scoring_extensional (ts ts' : TechStack) (ar ar' : Architecture)
    (ce ce' : CodeExamples)
    (hconf : ts.configurations = ts'.configurations)
    (hpat : ar.patterns = ar'.patterns)
    (hce : ce = ce') :
    calculateConfidenceScores ts ar ce = calculateConfidenceScores ts' ar' ce' ∧
    calculateCompletenessScores ar ce = calculateCompletenessScores ar' ce' := by
  subst hce
  obtain ⟨pats⟩ := ar
  obtain ⟨pats'⟩ := ar'
  simp only [Architecture.mk.injEq] at hpat
  subst hpat
  refine ⟨?_, rfl⟩
  unfold calculateConfidenceScores
  exact List.map_congr_left fun d _ => by
    rw [hasDetectedConfiguration, hasDetectedConfiguration, hconf]

/-- C8 witness: two tech-stack objects that differ in the detected
frameworks but agree on configurations give identical score maps. -/
theorem scoring_extensional_witness :
    calculateConfidenceScores ⟨[("react", ["react"])], []⟩ ⟨[]⟩ [] =
      calculateConfidenceScores ⟨[], []⟩ ⟨[]⟩ [] ∧
    calculateCompletenessScores ⟨[]⟩ [] = calculateCompletenessScores ⟨[]⟩ [] :=
  scoring_extensional ⟨[("react", ["react"])], []⟩ ⟨[], []⟩ ⟨[]⟩ ⟨[]⟩ [] [] rfl rfl rfl

/-- C2 counterexample: for a domain present in `architecture.patterns` with
an empty pattern list but one extracted example, the code stores
completeness 0, while the spec formula
`acceptedExampleCount / max(patternMatchCount, 1)` clamped to [0,1]
evaluates to 1. -/
theorem completeness_claim_counterexample :
    calculateCompletenessScores ⟨[("authentication", [])]⟩
        [("authentication", ["ex1"])] = [("authentication", 0)] ∧
    specCompletenessFormula 0 1 = 1 ∧ (0 : ℚ) ≠ 1 := by
  refine ⟨rfl, ?_, by norm_num⟩
  simp only [specCompletenessFormula, clamp01]
  norm_num

theorem completenessScore_eq (pc ec : Nat) :
    completenessScore pc ec =
      if pc = 0 then 0 else specCompletenessFormula pc ec := by
  rcases Nat.eq_zero_or_pos pc with h | h
  · subst h
    simp [completenessScore]
  · have hpc : pc ≠ 0 := Nat.pos_iff_ne_zero.mp h
    have hnn : (0 : ℚ) ≤ (ec : ℚ) / (max pc 1 : ℚ) :=
      div_nonneg (Nat.cast_nonneg ec) (le_trans zero_le_one (le_max_right _ _))
    rw [completenessScore, specCompletenessFormula, clamp01, if_pos h, if_neg hpc,
      max_eq_left hnn]

theorem completenessScore_mem_unit (pc ec : Nat) :
    0 ≤ completenessScore pc ec ∧ completenessScore pc ec ≤ 1 := by
  rw [completenessScore]
  split
  · have hnn : (0 : ℚ) ≤ (ec : ℚ) / (max pc 1 : ℚ) :=
      div_nonneg (Nat.cast_nonneg ec) (le_trans zero_le_one (le_max_right _ _))
    exact ⟨le_min hnn zero_le_one, min_le_right _ _⟩
  · norm_num

theorem completenessScore_zero_iff (pc ec : Nat) (h : 0 < pc) :
    (completenessScore pc ec = 0 ↔ ec = 0) := by
  have hpc0 : (pc : ℚ) ≠ 0 := Nat.cast_ne_zero.mpr (Nat.pos_iff_ne_zero.mp h)
  have hmax : (max pc 1 : ℚ) = (pc : ℚ) :=
    max_eq_left (by exact_mod_cast Nat.one_le_iff_ne_zero.mpr (Nat.pos_iff_ne_zero.mp h))
  rw [completenessScore, if_pos h, hmax]
  constructor
  · intro h0
    rcases min_eq_iff.mp h0 with ⟨hq, _⟩ | ⟨hq, _⟩
    · rcases div_eq_zero_iff.mp hq with hq2 | hq2
      · exact_mod_cast hq2
      · exact absurd hq2 hpc0
    · exact absurd hq one_ne_zero
  · rintro rfl
    rw [Nat.cast_zero, zero_div]
    exact min_eq_left zero_le_one

/-- C2 amended: the computed completeness equals the spec formula
`acceptedExampleCount / max(patternMatchCount, 1)` clamped to [0,1] only
for domains with at least one pattern match; a domain with zero pattern
matches always scores 0, even when accepted examples exist.  The score
lies in [0,1], and for a domain with ≥1 pattern match it equals 0 exactly
when the accepted-example count is 0. -/
theorem completeness_amended (ar : Architecture) (ce : CodeExamples) :
    (calculateCompletenessScores ar ce = ar.patterns.map fun entry =>
      (entry.1, if entry.2.length = 0 then 0
        else specCompletenessFormula entry.2.length
          ((ce.lookup entry.1).getD []).length)) ∧
    (∀ pc ec : Nat, 0 ≤ completenessScore pc ec ∧ completenessScore pc ec ≤ 1 ∧
      (0 < pc → (completenessScore pc ec = 0 ↔ ec = 0))) := by
  constructor
  · unfold calculateCompletenessScores
    exact List.map_congr_left fun e _ => by
      simp only []
      rw [completenessScore_eq]
  · intro pc ec
    exact ⟨(completenessScore_mem_unit pc ec).1, (completenessScore_mem_unit pc ec).2,
      fun h => completenessScore_zero_iff pc ec h⟩

/-- C2 amended witness: a domain with 2 pattern matches and 1 accepted
example scores in [0,1] and its completeness is zero exactly when the
example count is zero (here: it is not). -/
theorem completeness_amended_witness :
    0 ≤ completenessScore 2 1 ∧ completenessScore 2 1 ≤ 1 ∧
    (completenessScore 2 1 = 0 ↔ 1 = 0) := by
  obtain ⟨h1, h2, h3⟩ :=
    (completeness_amended ⟨[("database", ["p1", "p2"])]⟩ [("database", ["e1"])]).2 2 1
  exact ⟨h1, h2, h3 (by decide)⟩

/-- Replacement of the first occurrence of `pat` in `s`, character-list
level; this is the semantics of JS `String.prototype.replace` with a
string pattern, as used in `name.replace('-architecture', '')`. -/
def replaceFirst : List Char → List Char → List Char → List Char
  | [], _, _ => []
  | c :: rest, pat, repl =>
    if pat.isPrefixOf (c :: rest) then repl ++ (c :: rest).drop pat.length
    else c :: replaceFirst rest pat repl

/-- JS `s.replace(pat, repl)` for a plain-string pattern: only the first
occurrence is replaced. -/
def jsReplace (s pat repl : String) : String :=
  String.mk (replaceFirst s.data pat.data repl.data)

/-- A guide entry of the hard-coded ten-guide list in
`generateDocumentation`. -/
structure GuideSpec where
  name : String
  priority : Nat
deriving DecidableEq

/-- The 10 essential guides, with priorities, as hard-coded in
`generateDocumentation`. -/
def guides : List GuideSpec :=
  [⟨"authentication-architecture", 1⟩, ⟨"component-architecture", 1⟩,
   ⟨"state-management-architecture", 1⟩, ⟨"background-jobs-architecture", 2⟩,
   ⟨"file-storage-architecture", 2⟩, ⟨"database-architecture", 2⟩,
   ⟨"error-handling-architecture", 3⟩, ⟨"testing-architecture", 3⟩,
   ⟨"integration-architecture", 3⟩, ⟨"deployment-architecture", 3⟩]

/-- JS `x || 0` on a possibly-undefined number: `undefined` and `0` are
falsy and give `0`; any other number is returned unchanged. -/
def jsOrZero (o : Option ℚ) : ℚ :=
  match o with
  | none => 0
  | some v => if v = 0 then 0 else v

/-- The confidence attached to a guide throughout `generateDocumentation`
(sort comparator, per-guide result, index):
`this.analysis.metadata.confidence[guide.name.replace('-architecture', '')] || 0`. -/
def guideConfidence (scores : List (String × ℚ)) (guideName : String) : ℚ :=
  jsOrZero (scores.lookup (jsReplace guideName "-architecture" ""))

/-- C9: for each of the five guides whose name with "-architecture"
stripped differs from the camelCase domain key of the confidence map
(component vs components, state-management vs state, background-jobs vs
backgroundJobs, file-storage vs fileStorage, error-handling vs
errorHandling), the confidence attached to the guide is 0 regardless of
the analyzer inputs and hence of the domain's actual confidence score. -/
theorem mismatched_guides_confidence_zero (ts : TechStack) (ar : Architecture)
    (ce : CodeExamples) :
    ∀ g ∈ (["component-architecture", "state-management-architecture",
        "background-jobs-architecture", "file-storage-architecture",
        "error-handling-architecture"] : List String),
      g ∈ guides.map GuideSpec.name ∧
      jsReplace g "-architecture" "" ∉ domains ∧
      guideConfidence (calculateConfidenceScores ts ar ce) g = 0 := by
  intro g hg
  have hnot : jsReplace g "-architecture" "" ∉ domains := by
    fin_cases hg <;> decide
  refine ⟨?_, hnot, ?_⟩
  · fin_cases hg <;> decide
  · unfold guideConfidence calculateConfidenceScores
    rw [lookup_map_of_not_mem _ _ _ hnot]
    rfl

/-- C9 witness: the guide "component-architecture" gets confidence 0 even
though the "components" domain has a pattern match (actual score 0.4). -/
theorem mismatched_guides_confidence_zero_witness :
    ("component-architecture" ∈ guides.map GuideSpec.name) ∧
    jsReplace "component-architecture" "-architecture" "" ∉ domains ∧
    guideConfidence
      (calculateConfidenceScores ⟨[], []⟩ ⟨[("components", ["p"])]⟩ [])
      "component-architecture" = 0 :=
  mismatched_guides_confidence_zero ⟨[], []⟩ ⟨[("components", ["p"])]⟩ []
    "component-architecture" (by decide)

/-- Observable actions of the per-guide loop in `generateDocumentation`:
the call to the external generation collaborator
(`this.aiClient.generateContent`, via `generateGuide`), the write of the
guide file, and the rate-limiting wait (`this.delay(...)`). -/
inductive GenEvent where
  | aiCall (guide : String)
  | fileWrite (guide : String)
  | rateDelay (ms : ℚ)
deriving DecidableEq

/-- A per-guide entry of the `results` array built by the loop. -/
inductive GuideOutcome where
  | success (guide : String) (confidence : ℚ)
  | failure (guide : String) (message : String)
deriving DecidableEq

/-- JS `x || d` on a possibly-undefined number, as in
`this.config.ai.rateLimitDelay || 100`: `undefined` and `0` are falsy. -/
def jsOrDefault (o : Option ℚ) (d : ℚ) : ℚ :=
  match o with
  | none => d
  | some v => if v = 0 then d else v

/-- The guide of a result entry. -/
def GuideOutcome.guide : GuideOutcome → String
  | .success g _ => g
  | .failure g _ => g

/-- The `for (const guide of sortedGuides)` loop of
`generateDocumentation`, over an arbitrary (already sorted) guide list.
Each iteration is wrapped in try/catch: on success the guide file is
written, a success result (carrying `guideConfidence`) is pushed and the
rate-limit delay is awaited; a failure of the generation call or of the
file write is caught, an error result is pushed, and the loop continues
with no delay.  `genOutcome` abstracts the external generation call and
`writeSucceeds` the guide-file write. -/
def guideLoop (rateLimitDelay : Option ℚ) (genOutcome : String → Except String String)
    (writeSucceeds : String → Bool) (confidence : List (String × ℚ)) :
    List GuideSpec → List GenEvent × List GuideOutcome
  | [] => ([], [])
  | g :: rest =>
    let step : List GenEvent × GuideOutcome :=
      match genOutcome g.name with
      | .error msg => ([.aiCall g.name], .failure g.name msg)
      | .ok _content =>
        if writeSucceeds g.name then
          ([.aiCall g.name, .fileWrite g.name,
            .rateDelay (jsOrDefault rateLimitDelay 100)],
           .success g.name (guideConfidence confidence g.name))
        else
          ([.aiCall g.name, .fileWrite g.name], .failure g.name "file write failed")
    let restRun := guideLoop rateLimitDelay genOutcome writeSucceeds confidence rest
    (step.1 ++ restRun.1, step.2 :: restRun.2)

/-- C5: the batch loop attempts every guide: the result list has exactly
one entry per guide in order, every guide's generation call is issued,
and a failed generation call is recorded as an error result — it never
prevents the remaining guides from being attempted. -/
theorem guideLoop_attempts_all (d : Option ℚ)
    (genOutcome : String → Except String String) (writeSucceeds : String → Bool)
    (confidence : List (String × ℚ)) (gs : List GuideSpec) :
    ((guideLoop d genOutcome writeSucceeds confidence gs).2.map GuideOutcome.guide =
      gs.map GuideSpec.name) ∧
    (∀ g ∈ gs,
      GenEvent.aiCall g.name ∈ (guideLoop d genOutcome writeSucceeds confidence gs).1) ∧
    (∀ g ∈ gs, ∀ msg, genOutcome g.name = .error msg →
      GuideOutcome.failure g.name msg ∈
        (guideLoop d genOutcome writeSucceeds confidence gs).2) := by
  induction gs with
  | nil => exact ⟨rfl, fun g hg => absurd hg (List.not_mem_nil g), fun g hg => absurd hg (List.not_mem_nil g)⟩
  | cons a t ih =>
    obtain ⟨ih1, ih2, ih3⟩ := ih
    refine ⟨?_, ?_, ?_⟩
    · simp only [guideLoop, List.map_cons]
      rw [ih1]
      rcases ha : genOutcome a.name with msg | content
      · rfl
      · by_cases hw : writeSucceeds a.name <;> simp [ha, hw, GuideOutcome.guide]
    · intro g hg
      rcases List.mem_cons.mp hg with h | h
      · subst h
        simp only [guideLoop, List.mem_append]
        left
        rcases ha : genOutcome g.name with msg | content
        · exact List.mem_singleton.mpr rfl
        · by_cases hw : writeSucceeds g.name <;> simp [ha, hw]
      · simp only [guideLoop, List.mem_append]
        exact Or.inr (ih2 g h)
    · intro g hg msg hmsg
      rcases List.mem_cons.mp hg with h | h
      · subst h
        simp only [guideLoop, List.mem_cons]
        left
        simp [hmsg]
      · simp only [guideLoop, List.mem_cons]
        exact Or.inr (ih3 g h msg hmsg)

/-- C5 witness: with the first guide's generation call failing and the
second succeeding, both guides appear in the results in order, both calls
are issued, and the failure is recorded. -/
theorem guideLoop_attempts_all_witness :
    ((guideLoop none
        (fun n => if n = "authentication-architecture" then .error "boom" else .ok "text")
        (fun _ => true) []
        [⟨"authentication-architecture", 1⟩, ⟨"component-architecture", 1⟩]).2.map
        GuideOutcome.guide =
      [⟨"authentication-architecture", 1⟩,
        (⟨"component-architecture", 1⟩ : GuideSpec)].map GuideSpec.name) ∧
    (GenEvent.aiCall "component-architecture" ∈
      (guideLoop none
        (fun n => if n = "authentication-architecture" then .error "boom" else .ok "text")
        (fun _ => true) []
        [⟨"authentication-architecture", 1⟩, ⟨"component-architecture", 1⟩]).1) ∧
    (GuideOutcome.failure "authentication-architecture" "boom" ∈
      (guideLoop none
        (fun n => if n = "authentication-architecture" then .error "boom" else .ok "text")
        (fun _ => true) []
        [⟨"authentication-architecture", 1⟩, ⟨"component-architecture", 1⟩]).2) := by
  obtain ⟨h1, h2, h3⟩ := guideLoop_attempts_all none
    (fun n => if n = "authentication-architecture" then .error "boom" else .ok "text")
    (fun _ => true) []
    [⟨"authentication-architecture", 1⟩, ⟨"component-architecture", 1⟩]
  exact ⟨h1, h2 ⟨"component-architecture", 1⟩ (by decide),
    h3 ⟨"authentication-architecture", 1⟩ (by decide) "boom" rfl⟩

/-- Helper for `delaysSeparateCalls`: the flag records that a generation
call has been seen with no delay event since. -/
def sepAux : Bool → List GenEvent → Bool
  | _, [] => true
  | pendingCall, GenEvent.aiCall _ :: rest =>
    if pendingCall then false else sepAux true rest
  | _, GenEvent.rateDelay _ :: rest => sepAux false rest
  | pendingCall, GenEvent.fileWrite _ :: rest => sepAux pendingCall rest

/-- Checks the property C6 asserts of a trace: between every pair of
consecutive generation calls at least one delay event occurs. -/
def delaysSeparateCalls (trace : List GenEvent) : Bool :=
  sepAux false trace

/-- C6 counterexample: when the first guide's generation call fails, the
next guide's call is issued immediately — the trace contains two
consecutive generation calls with no delay between them, because the
rate-limit delay only runs on the success path of the loop body. -/
theorem rate_delay_counterexample :
    (guideLoop (some 100)
        (fun n => if n = "authentication-architecture" then .error "rate limited"
          else .ok "text")
        (fun _ => true) []
        [⟨"authentication-architecture", 1⟩, ⟨"component-architecture", 1⟩]).1 =
      [GenEvent.aiCall "authentication-architecture",
       GenEvent.aiCall "component-architecture",
       GenEvent.fileWrite "component-architecture", GenEvent.rateDelay 100] ∧
    delaysSeparateCalls
      (guideLoop (some 100)
        (fun n => if n = "authentication-architecture" then .error "rate limited"
          else .ok "text")
        (fun _ => true) []
        [⟨"authentication-architecture", 1⟩, ⟨"component-architecture", 1⟩]).1 = false := by
  exact ⟨by decide, by decide⟩

/-- C6 amended: the loop waits the configured rateLimitDelay (default 100
when unset or 0) after each successfully generated and written guide
before the next call; after a failed guide the next call is issued with
no intervening delay.  The event trace is exactly the concatenation of
these per-guide segments. -/
theorem guideLoop_trace_shape (d : Option ℚ)
    (genOutcome : String → Except String String) (writeSucceeds : String → Bool)
    (confidence : List (String × ℚ)) (gs : List GuideSpec) :
    (guideLoop d genOutcome writeSucceeds confidence gs).1 =
      (gs.map fun g =>
        match genOutcome g.name with
        | .error _ => [GenEvent.aiCall g.name]
        | .ok _ =>
          if writeSucceeds g.name then
            [GenEvent.aiCall g.name, GenEvent.fileWrite g.name,
             GenEvent.rateDelay (jsOrDefault d 100)]
          else [GenEvent.aiCall g.name, GenEvent.fileWrite g.name]).flatten ∧
    jsOrDefault none 100 = 100 := by
  refine ⟨?_, rfl⟩
  induction gs with
  | nil => rfl
  | cons a t ih =>
    simp only [guideLoop, List.map_cons, List.flatten_cons]
    rw [← ih]
    rcases ha : genOutcome a.name with msg | content
    · simp [ha]
    · by_cases hw : writeSucceeds a.name <;> simp [ha, hw]

/-- Possible inputs of an analyzer invocation, for describing which data
each `analyzeCodebase` call receives. -/
inductive AnalyzerInput where
  | projectRoot
  | catalog
  | domainMatches
  | limits
deriving DecidableEq

/-- One analyzer invocation of `analyzeCodebase`, with the arguments it is
given. -/
structure AnalyzerCall where
  analyzer : String
  args : List AnalyzerInput
deriving DecidableEq

/-- The staging of `analyzeCodebase` (lines 74–85): a single
`Promise.all` stage launching all four analyzers concurrently, each with
only `this.projectRoot` as argument. -/
def analysisStages : List (List AnalyzerCall) :=
  [[⟨"techStackAnalyzer.analyze", [.projectRoot]⟩,
    ⟨"architectureAnalyzer.analyze", [.projectRoot]⟩,
    ⟨"codeExtractor.extract", [.projectRoot]⟩,
    ⟨"fileStructureAnalyzer.analyze", [.projectRoot]⟩]]

/-- Index of the stage in which an analyzer is invoked. -/
def stageIndexOf (analyzer : String) : Option Nat :=
  analysisStages.findIdx? fun stage => stage.any fun c => c.analyzer == analyzer

/-- The invocation record of an analyzer. -/
def callOf (analyzer : String) : Option AnalyzerCall :=
  analysisStages.flatten.find? fun c => c.analyzer == analyzer

/-- C3 counterexample: in `analyzeCodebase` the code extractor is NOT
staged behind the architecture pattern detector — both run in the same
(single) `Promise.all` stage — and the extractor is invoked as
`codeExtractor.extract(this.projectRoot)`, receiving no DomainMatch
output at all. -/
theorem extractor_staging_counterexample :
    ¬ (∃ i j c, stageIndexOf "architectureAnalyzer.analyze" = some i ∧
        stageIndexOf "codeExtractor.extract" = some j ∧ i < j ∧
        callOf "codeExtractor.extract" = some c ∧
        AnalyzerInput.domainMatches ∈ c.args) := by
  rintro ⟨i, j, c, hi, hj, hij, -, -⟩
  have hi0 : some (0 : Nat) = some i := by rw [← hi]; rfl
  have hj0 : some (0 : Nat) = some j := by rw [← hj]; rfl
  obtain rfl := Option.some_injective _ hi0
  obtain rfl := Option.some_injective _ hj0
  exact absurd hij (lt_irrefl 0)

/-- C3 amended: all four analyzers — tech stack, architecture patterns,
code-example extraction and file structure — are launched concurrently in
the one and only `Promise.all` stage of `analyzeCodebase`, and the code
extractor receives only the project root, not the pattern detector's
output. -/
theorem extractor_staging_amended :
    stageIndexOf "codeExtractor.extract" = some 0 ∧
    stageIndexOf "architectureAnalyzer.analyze" = some 0 ∧
    stageIndexOf "techStackAnalyzer.analyze" = some 0 ∧
    stageIndexOf "fileStructureAnalyzer.analyze" = some 0 ∧
    analysisStages.length = 1 ∧
    callOf "codeExtractor.extract" =
      some ⟨"codeExtractor.extract", [AnalyzerInput.projectRoot]⟩ := by
  refine ⟨rfl, rfl, rfl, rfl, rfl, rfl⟩

/-- The fallible awaited steps of `run()` (and of the methods it calls)
whose exceptions propagate to the catch block in `run`, in program order.
Per-guide generation/write failures are absent here by design: the guide
loop catches them itself (see `guideLoop`).  `analyzersSucceed` covers the
`Promise.all` over the four analyzers, which is where an unreadable
project root surfaces. -/
structure RunEnv where
  configLoads : Bool
  outputDirCreated : Bool
  analyzersSucceed : Bool
  analysisSaved : Bool
  masterPromptLoads : Bool
  indexWritten : Bool
  validatorsSucceed : Bool
deriving DecidableEq

/-- Exit behaviour of the command. -/
inductive RunResult where
  | exitFailure
  | completed
deriving DecidableEq

/-- `run()`: `loadConfig` calls `process.exit(1)` itself on a read/parse
failure; every other listed failure throws, is caught by the single
try/catch in `run`, and leads to `process.exit(1)`. -/
def run (env : RunEnv) : RunResult :=
  if !env.configLoads then .exitFailure
  else if !env.outputDirCreated then .exitFailure
  else if !env.analyzersSucceed then .exitFailure
  else if !env.analysisSaved then .exitFailure
  else if !env.masterPromptLoads then .exitFailure
  else if !env.indexWritten then .exitFailure
  else if !env.validatorsSucceed then .exitFailure
  else .completed

/-- `this.analysis` is assigned (line 88) before `saveAnalysisResults`
runs, so an analysis result exists once config loading, output-directory
creation and the analyzer stage have succeeded. -/
def analysisProduced (env : RunEnv) : Bool :=
  env.configLoads && env.outputDirCreated && env.analyzersSucceed

/-- C4 counterexample: with everything succeeding except the final
validation pass, a complete AnalysisResult was produced (and saved, and
all guides generated) — yet `run` exits non-zero, although neither the
configuration parse nor the project-root read failed. -/
theorem exit_policy_counterexample :
    analysisProduced ⟨true, true, true, true, true, true, false⟩ = true ∧
    run ⟨true, true, true, true, true, true, false⟩ = RunResult.exitFailure := by
  exact ⟨rfl, rfl⟩

/-- C4 amended: the command exits successfully iff every fallible awaited
step succeeds — configuration load/parse, output-directory creation, the
analyzer stage (including a readable project root), analysis-result
saving, master-prompt loading, index writing and post-generation
validation.  Only per-guide generation failures are recovered; any other
failure is fatal even when a full AnalysisResult was already produced. -/
theorem exit_policy_amended (env : RunEnv) :
    run env = RunResult.completed ↔
      (env.configLoads = true ∧ env.outputDirCreated = true ∧
       env.analyzersSucceed = true ∧ env.analysisSaved = true ∧
       env.masterPromptLoads = true ∧ env.indexWritten = true ∧
       env.validatorsSucceed = true) := by
  obtain ⟨a, b, c, d, e, f, g⟩ := env
  revert a b c d e f g
  decide

end GenerateDocs
